import Mathlib

/-!
Verification development for the tech-stack voting/selection subsystem of the
chingu-dashboard backend (`TechsService`, source file `src/unnamed/part_000`)
and the form-response flattening helper (`GlobalService.responseDtoToArray`,
source file `src/src/global/global.service.ts`).

The storage collaborator (Prisma over a relational store) is embedded as pure
functions over an explicit `DB` record.  Each Prisma call used by the service
becomes one primitive returning `Except PrismaError`; a unique-constraint
violation (Prisma error P2002) and a record-not-found error (P2025) are the
two storage error kinds the service code distinguishes.  Service operations
return `Except ServiceError result × DB`: the returned `DB` is the store as
left behind by the call (failure paths that threw before any write return the
store unchanged; a path that wrote and then failed returns the partial state,
exactly as the sequential source would).
-/

deriving instance DecidableEq for Except

namespace ChinguDashboard

/-- Membership of a user in a voyage team (`voyageTeamMember` table). -/
structure VoyageTeamMember where
  id : Nat
  userId : String
  voyageTeamId : Nat
deriving DecidableEq

/-- Global tech-stack category (`techStackCategory` table). -/
structure TechStackCategory where
  id : Nat
  name : String
  description : String
deriving DecidableEq

/-- Team-scoped candidate technology (`teamTechStackItem` table). -/
structure TeamTechStackItem where
  id : Nat
  name : String
  categoryId : Nat
  voyageTeamId : Nat
  isSelected : Bool
deriving DecidableEq

/-- One member's vote for one tech item (`teamTechStackItemVote` table). -/
structure TeamTechStackItemVote where
  id : Nat
  teamTechId : Nat
  teamMemberId : Nat
  createdAt : Nat
  updatedAt : Nat
deriving DecidableEq

/-- The relational store: the four tables the subsystem touches, plus
autoincrement counters for the two tables it inserts into and a clock for
`createdAt` / `updatedAt` timestamps. -/
structure DB where
  voyageTeams : List Nat
  voyageTeamMembers : List VoyageTeamMember
  techStackCategories : List TechStackCategory
  teamTechStackItems : List TeamTechStackItem
  teamTechStackItemVotes : List TeamTechStackItemVote
  nextItemId : Nat
  nextVoteId : Nat
  now : Nat
deriving DecidableEq

/-- Storage-layer error kinds the service code distinguishes:
`uniqueViolation` is Prisma code P2002, `recordNotFound` is P2025. -/
inductive PrismaError where
  | uniqueViolation
  | recordNotFound (cause : String)
deriving DecidableEq

/-- Errors surfaced by the service: the three NestJS exceptions it throws,
plus `internal` for errors the catch blocks rethrow unchanged (unexpected
storage errors, or a TypeError from dereferencing null). -/
inductive ServiceError where
  | badRequest (msg : String)
  | notFound (msg : String)
  | conflict (msg : String)
  | internal (msg : String)
deriving DecidableEq

/-- Rethrow of a storage error that the surrounding catch block does not
translate: it escapes the service as an unexpected (500) error. -/
def rethrow : PrismaError → ServiceError
  | .uniqueViolation => .internal "P2002"
  | .recordNotFound cause => .internal cause

/-! ## Storage primitives (one per Prisma call shape used by the service) -/

/-- Model of `prisma.voyageTeam.findUnique({ where: { id } })`. -/
def voyageTeamFindUnique (db : DB) (teamId : Nat) : Option Nat :=
  db.voyageTeams.find? (fun t => t == teamId)

/-- Model of `prisma.voyageTeamMember.findUnique({ where: { userVoyageId } })`:
lookup by the composite key (userId, voyageTeamId). -/
def voyageTeamMemberFindUnique (db : DB) (userId : String) (teamId : Nat) :
    Option VoyageTeamMember :=
  db.voyageTeamMembers.find? (fun m => m.userId == userId && m.voyageTeamId == teamId)

/-- Model of `prisma.teamTechStackItem.findUnique({ where: { id } })`. -/
def teamTechStackItemFindUnique (db : DB) (id : Nat) : Option TeamTechStackItem :=
  db.teamTechStackItems.find? (fun it => it.id == id)

/-- Boolean test used by the item-create primitive for its unique constraint. -/
def itemDupB (name : String) (categoryId voyageTeamId : Nat) (it : TeamTechStackItem) : Bool :=
  it.name == name && it.categoryId == categoryId && it.voyageTeamId == voyageTeamId

/-- Model of `prisma.teamTechStackItem.create`.  Modelled from the spec: the
Prisma schema is not under src/; the spec states that a tech item's "name
uniqueness is scoped per team+category (violations surface as a conflict)",
so creation fails with P2002 exactly when an item with the same
(name, category, team) triple already exists.  A new item starts with
`isSelected = false`. -/
def teamTechStackItemCreate (db : DB) (name : String) (categoryId voyageTeamId : Nat) :
    Except PrismaError (TeamTechStackItem × DB) :=
  if db.teamTechStackItems.any (itemDupB name categoryId voyageTeamId) then
    .error .uniqueViolation
  else
    let it : TeamTechStackItem :=
      { id := db.nextItemId, name := name, categoryId := categoryId,
        voyageTeamId := voyageTeamId, isSelected := false }
    .ok (it, { db with
               teamTechStackItems := db.teamTechStackItems ++ [it]
               nextItemId := db.nextItemId + 1 })

/-- Boolean test for the composite vote key (teamTechId, teamMemberId). -/
def votePairB (teamTechId teamMemberId : Nat) (v : TeamTechStackItemVote) : Bool :=
  v.teamTechId == teamTechId && v.teamMemberId == teamMemberId

/-- Model of `prisma.teamTechStackItemVote.create`.  Modelled from the spec:
the Prisma schema is not under src/; the spec states "the pair (tech item,
member) is unique — a member cannot vote twice for the same item", so creation
fails with P2002 exactly when a vote with the same pair already exists. -/
def teamTechStackItemVoteCreate (db : DB) (teamTechId teamMemberId : Nat) :
    Except PrismaError (TeamTechStackItemVote × DB) :=
  if db.teamTechStackItemVotes.any (votePairB teamTechId teamMemberId) then
    .error .uniqueViolation
  else
    let v : TeamTechStackItemVote :=
      { id := db.nextVoteId, teamTechId := teamTechId, teamMemberId := teamMemberId,
        createdAt := db.now, updatedAt := db.now }
    .ok (v, { db with
              teamTechStackItemVotes := db.teamTechStackItemVotes ++ [v]
              nextVoteId := db.nextVoteId + 1 })

/-- Model of `prisma.teamTechStackItemVote.delete({ where: { userTeamStackVote } })`:
delete by the composite key, P2025 when no such record exists. -/
def teamTechStackItemVoteDelete (db : DB) (teamTechId teamMemberId : Nat) :
    Except PrismaError DB :=
  if db.teamTechStackItemVotes.any (votePairB teamTechId teamMemberId) then
    .ok { db with teamTechStackItemVotes :=
            db.teamTechStackItemVotes.filter (fun v => !(votePairB teamTechId teamMemberId v)) }
  else
    .error (.recordNotFound "Record to delete does not exist.")

/-- Model of `prisma.teamTechStackItem.delete({ where: { id } })`.  Only the
item row itself is removed; any remaining votes for it are left dangling (the
service only calls this after observing a vote count of zero). -/
def teamTechStackItemDelete (db : DB) (id : Nat) : Except PrismaError DB :=
  if db.teamTechStackItems.any (fun it => it.id == id) then
    .ok { db with teamTechStackItems := db.teamTechStackItems.filter (fun it => !(it.id == id)) }
  else
    .error (.recordNotFound "Record to delete does not exist.")

/-- The per-row effect of the flag update: the row with the matching id gets
the new flag, every other row is untouched. -/
def applySel (id : Nat) (isSel : Bool) (j : TeamTechStackItem) : TeamTechStackItem :=
  if j.id == id then { j with isSelected := isSel } else j

/-- Model of `prisma.teamTechStackItem.update({ where: { id }, data: { isSelected } })`:
P2025 when the row is absent, otherwise sets the flag and returns the updated row. -/
def teamTechStackItemUpdate (db : DB) (id : Nat) (isSel : Bool) :
    Except PrismaError (TeamTechStackItem × DB) :=
  match db.teamTechStackItems.find? (fun it => it.id == id) with
  | none => .error (.recordNotFound "Record to update not found.")
  | some it =>
    .ok ({ it with isSelected := isSel },
         { db with teamTechStackItems := db.teamTechStackItems.map (applySel id isSel) })

/-- Votes currently recorded for one item (the `teamTechStackItemVotes`
relation selected in `removeVote`'s cascade check). -/
def itemVotes (db : DB) (teamTechId : Nat) : List TeamTechStackItemVote :=
  db.teamTechStackItemVotes.filter (fun v => v.teamTechId == teamTechId)

/-! ## TechsService (src/unnamed/part_000) -/

/-- Cap constant, line 11 of the source. -/
def MAX_SELECTION_COUNT : Nat := 3

/-- Embedding of `TechsService.validateTeamId` (lines 17-27): NotFound when the
team id matches no voyage team. -/
def validateTeamId (db : DB) (teamId : Nat) : Except ServiceError Unit :=
  match voyageTeamFindUnique db teamId with
  | some _ => .ok ()
  | none => .error (.notFound ("Team (id: " ++ toString teamId ++ ") does not exist."))

/-- Embedding of `TechsService.findVoyageMemberId` (lines 29-43): resolves the
caller's membership id in the team, or `none`. -/
def findVoyageMemberId (db : DB) (userId : String) (teamId : Nat) : Option Nat :=
  (voyageTeamMemberFindUnique db userId teamId).map (fun m => m.id)

/-- Voter entry of the catalog read-model (the nested `votedBy.member` select;
only the member id is modelled, the displayed name/avatar fields live on the
user record outside this subsystem). -/
structure CatalogVoter where
  memberId : Nat
deriving DecidableEq

/-- Item entry of the catalog read-model. -/
structure CatalogItem where
  id : Nat
  name : String
  teamTechStackItemVotes : List CatalogVoter
deriving DecidableEq

/-- Category entry of the catalog read-model. -/
structure CatalogCategory where
  id : Nat
  name : String
  description : String
  teamTechStackItems : List CatalogItem
deriving DecidableEq

/-- Embedding of the `techStackCategory.findMany` query of
`getAllTechItemsByTeamId` (lines 48-79): every category, with the requesting
team's items and each item's votes nested under it. -/
def catalogQuery (db : DB) (teamId : Nat) : List CatalogCategory :=
  db.techStackCategories.map (fun c =>
    { id := c.id, name := c.name, description := c.description,
      teamTechStackItems :=
        (db.teamTechStackItems.filter
            (fun it => it.categoryId == c.id && it.voyageTeamId == teamId)).map
          (fun it =>
            { id := it.id, name := it.name,
              teamTechStackItemVotes :=
                (itemVotes db it.id).map (fun v => { memberId := v.teamMemberId }) }) })

/-- Embedding of `TechsService.getAllTechItemsByTeamId` (lines 45-80).
Line 46 invokes `this.validateTeamId(teamId)` WITHOUT `await`: the returned
promise is discarded, so a NotFoundException raised inside the validator
becomes an unhandled promise rejection and never fails this call.  The
operation therefore always resolves with the catalog query result, which this
embedding makes explicit by discarding `validateTeamId`'s result. -/
def getAllTechItemsByTeamId (db : DB) (teamId : Nat) :
    Except ServiceError (List CatalogCategory) :=
  let _unawaited := validateTeamId db teamId
  .ok (catalogQuery db teamId)

/-- One tech entry of the update-selections DTO. -/
structure TechSelection where
  techId : Nat
  isSelected : Bool
deriving DecidableEq

/-- One category block of the update-selections DTO. -/
structure CategorySelection where
  categoryId : Nat
  techs : List TechSelection
deriving DecidableEq

/-- The `UpdateTechSelectionsDto` payload. -/
structure UpdateTechSelectionsDto where
  categories : List CategorySelection
deriving DecidableEq

/-- Per-category count of entries marked selected (the `reduce` on lines 91-94). -/
def selectCount (c : CategorySelection) : Nat :=
  c.techs.foldl (fun acc t => acc + (if t.isSelected then 1 else 0)) 0

/-- The flattening of all tech entries across categories (lines 106-109). -/
def techsArrayOf (dto : UpdateTechSelectionsDto) : List TechSelection :=
  (dto.categories.map (fun c => c.techs)).flatten

/-- Sequential execution of the batched updates inside `prisma.$transaction`
(lines 110-121): the updates run in order; any failure aborts the whole
transaction, rolling back every update (no partial state escapes). -/
def applyUpdates (db : DB) (techs : List TechSelection) :
    Except PrismaError (List TeamTechStackItem × DB) :=
  match techs with
  | [] => .ok ([], db)
  | t :: rest =>
    match teamTechStackItemUpdate db t.techId t.isSelected with
    | .error e => .error e
    | .ok (r, db1) =>
      match applyUpdates db1 rest with
      | .error e => .error e
      | .ok (rs, db2) => .ok (r :: rs, db2)

/-- Embedding of `TechsService.updateTechStackSelections` (lines 82-122):
cap validation over every category first, then identity resolution, then the
flattened updates in one transaction.  A storage error inside the transaction
is not caught by this method, so it escapes as an unexpected error with the
store rolled back. -/
def updateTechStackSelections (db : DB) (userId : String) (teamId : Nat)
    (dto : UpdateTechSelectionsDto) :
    Except ServiceError (List TeamTechStackItem) × DB :=
  if dto.categories.any (fun c => MAX_SELECTION_COUNT < selectCount c) then
    (.error (.badRequest ("Only " ++ toString MAX_SELECTION_COUNT ++
        " selections allowed per category")), db)
  else
    match findVoyageMemberId db userId teamId with
    | none => (.error (.badRequest "Invalid User or Team Id"), db)
    | some _ =>
      match applyUpdates db (techsArrayOf dto) with
      | .error e => (.error (rethrow e), db)
      | .ok (rs, db1) => (.ok rs, db1)

/-- The `CreateTeamTechDto` payload. -/
structure CreateTeamTechDto where
  techName : String
  techCategoryId : Nat
deriving DecidableEq

/-- Return shape shared by `addNewTeamTech` and `addExistingTechVote`. -/
structure TeamTechVoteResult where
  teamTechStackItemVoteId : Nat
  teamTechId : Nat
  teamMemberId : Nat
  createdAt : Nat
  updatedAt : Nat
deriving DecidableEq

/-- Embedding of `TechsService.addNewTeamTech` (lines 124-164): resolve
identity, create the item, create the creator's first vote.  The try/catch
wraps both creates: a P2002 from either is reported as the duplicate-name
Conflict (with no rollback of the item if it was the vote create that threw);
other storage errors are rethrown. -/
def addNewTeamTech (db : DB) (userId : String) (teamId : Nat)
    (dto : CreateTeamTechDto) : Except ServiceError TeamTechVoteResult × DB :=
  match findVoyageMemberId db userId teamId with
  | none => (.error (.badRequest "Invalid User or Team Id"), db)
  | some voyageMemberId =>
    match teamTechStackItemCreate db dto.techName dto.techCategoryId teamId with
    | .error .uniqueViolation =>
      (.error (.conflict (dto.techName ++
          " already exists in the available team tech stack.")), db)
    | .error e => (.error (rethrow e), db)
    | .ok (newTeamTechItem, db1) =>
      match teamTechStackItemVoteCreate db1 newTeamTechItem.id voyageMemberId with
      | .error .uniqueViolation =>
        (.error (.conflict (dto.techName ++
            " already exists in the available team tech stack.")), db1)
      | .error e => (.error (rethrow e), db1)
      | .ok (firstVote, db2) =>
        (.ok { teamTechStackItemVoteId := firstVote.id,
               teamTechId := newTeamTechItem.id,
               teamMemberId := firstVote.teamMemberId,
               createdAt := firstVote.createdAt,
               updatedAt := firstVote.updatedAt }, db2)

/-- Embedding of `TechsService.addExistingTechVote` (lines 166-202): check the
item exists (else BadRequest), resolve identity (else BadRequest), insert the
vote; P2002 becomes the already-voted Conflict, other storage errors rethrow. -/
def addExistingTechVote (db : DB) (userId : String) (teamId teamTechId : Nat) :
    Except ServiceError TeamTechVoteResult × DB :=
  match teamTechStackItemFindUnique db teamTechId with
  | none => (.error (.badRequest "Team Tech Item not found"), db)
  | some _ =>
    match findVoyageMemberId db userId teamId with
    | none => (.error (.badRequest "Invalid User"), db)
    | some voyageMemberId =>
      match teamTechStackItemVoteCreate db teamTechId voyageMemberId with
      | .error .uniqueViolation =>
        (.error (.conflict ("User has already voted for techId:" ++
            toString teamTechId)), db)
      | .error e => (.error (rethrow e), db)
      | .ok (v, db1) =>
        (.ok { teamTechStackItemVoteId := v.id, teamTechId := teamTechId,
               teamMemberId := v.teamMemberId, createdAt := v.createdAt,
               updatedAt := v.updatedAt }, db1)

/-- Return shape of `removeVote`'s success paths. -/
structure RemoveVoteResult where
  message : String
  statusCode : Nat
deriving DecidableEq

/-- Embedding of `TechsService.removeVote` (lines 204-254): resolve identity,
delete the caller's vote by composite key (P2025 becomes NotFound), re-read
the item's votes, and when none remain delete the item itself.  The three
storage calls are issued one after another with no transaction around them.
If the item row is absent at the cascade check (possible only under
interleaving), line 230 dereferences null and the resulting TypeError is
rethrown by the catch block (it carries no Prisma error code). -/
def removeVote (db : DB) (userId : String) (teamId teamTechId : Nat) :
    Except ServiceError RemoveVoteResult × DB :=
  match findVoyageMemberId db userId teamId with
  | none => (.error (.badRequest "Invalid User"), db)
  | some voyageMemberId =>
    match teamTechStackItemVoteDelete db teamTechId voyageMemberId with
    | .error (.recordNotFound cause) => (.error (.notFound cause), db)
    | .error e => (.error (rethrow e), db)
    | .ok db1 =>
      match teamTechStackItemFindUnique db1 teamTechId with
      | none =>
        (.error (.internal "TypeError: cannot read teamTechStackItemVotes of null"), db1)
      | some _ =>
        if (itemVotes db1 teamTechId).length == 0 then
          match teamTechStackItemDelete db1 teamTechId with
          | .ok db2 =>
            (.ok { message := "The vote and tech stack item were deleted",
                   statusCode := 200 }, db2)
          | .error (.recordNotFound cause) => (.error (.notFound cause), db1)
          | .error e => (.error (rethrow e), db1)
        else
          (.ok { message := "This vote was deleted", statusCode := 200 }, db1)

/-! ## Concrete fixtures used by witnesses and counterexamples -/

/-- Member 1 of team 1. -/
def member1 : VoyageTeamMember := { id := 1, userId := "u1", voyageTeamId := 1 }

/-- Member 2 of team 1. -/
def member2 : VoyageTeamMember := { id := 2, userId := "u2", voyageTeamId := 1 }

/-- A sample global category. -/
def catFrontend : TechStackCategory := { id := 1, name := "Frontend", description := "UI" }

/-- Store with one category but no team at all: input for the missing-team read. -/
def dbNoTeam : DB :=
  { voyageTeams := []
    voyageTeamMembers := []
    techStackCategories := [catFrontend]
    teamTechStackItems := []
    teamTechStackItemVotes := []
    nextItemId := 1
    nextVoteId := 1
    now := 0 }

/-- Store for the removeVote race: team 1, two members, one item with a single
vote by member 1. -/
def dbRace : DB :=
  { voyageTeams := [1]
    voyageTeamMembers := [member1, member2]
    techStackCategories := [catFrontend]
    teamTechStackItems := [{ id := 1, name := "React", categoryId := 1, voyageTeamId := 1, isSelected := false }]
    teamTechStackItemVotes := [{ id := 1, teamTechId := 1, teamMemberId := 1, createdAt := 0, updatedAt := 0 }]
    nextItemId := 2
    nextVoteId := 2
    now := 5 }

/-- State after removeVote's first storage call (member 1's vote deleted). -/
def dbRaceA : DB := { dbRace with teamTechStackItemVotes := [] }

/-- The vote the interleaved addVote commits for member 2. -/
def voteRaceB : TeamTechStackItemVote :=
  { id := 2, teamTechId := 1, teamMemberId := 2, createdAt := 5, updatedAt := 5 }

/-- State after the interleaved addVote by member 2 committed. -/
def dbRaceB : DB := { dbRaceA with teamTechStackItemVotes := [voteRaceB], nextVoteId := 3 }

/-- State after removeVote's item deletion, issued on the stale zero count. -/
def dbRaceC : DB := { dbRaceB with teamTechStackItems := [] }

/-- Result the interleaved addVote reports to member 2. -/
def resultRaceB : TeamTechVoteResult :=
  { teamTechStackItemVoteId := 2, teamTechId := 1, teamMemberId := 2, createdAt := 5, updatedAt := 5 }

/-- Store for the duplicate-techId update: one selected item, one member. -/
def dbDup : DB :=
  { voyageTeams := [1]
    voyageTeamMembers := [member1]
    techStackCategories := [catFrontend]
    teamTechStackItems := [{ id := 5, name := "Vue", categoryId := 1, voyageTeamId := 1, isSelected := true }]
    teamTechStackItemVotes := [{ id := 1, teamTechId := 5, teamMemberId := 1, createdAt := 0, updatedAt := 0 }]
    nextItemId := 6
    nextVoteId := 2
    now := 0 }

/-- Update payload listing tech 5 twice: first selected, then deselected. -/
def dtoDup : UpdateTechSelectionsDto :=
  { categories := [{ categoryId := 1, techs := [{ techId := 5, isSelected := true }, { techId := 5, isSelected := false }] }] }

/-- Store `dbDup` after the duplicate-techId update ran: the last write won. -/
def dbDupAfter : DB :=
  { dbDup with teamTechStackItems := [{ id := 5, name := "Vue", categoryId := 1, voyageTeamId := 1, isSelected := false }] }

/-! ## Claim theorems: the quick concrete ones -/

/-- C7 (code bug): for a teamId referring to no existing team, the catalog read
does NOT fail with NotFound.  Line 46 of the source calls `validateTeamId`
without `await`, so its NotFoundException is lost as an unhandled promise
rejection and `getAllTechItemsByTeamId` resolves with the catalog (here: the
global category with an empty item list).  The first conjunct shows the
validator itself would have reported NotFound for this input, the second that
the read nevertheless succeeds. -/
theorem getAllTechItems_missing_team_succeeds :
    validateTeamId dbNoTeam 99 = .error (.notFound "Team (id: 99) does not exist.") ∧
    getAllTechItemsByTeamId dbNoTeam 99 =
      .ok [{ id := 1, name := "Frontend", description := "UI", teamTechStackItems := [] }] := by
  decide

/-- C9 (code bug): removeVote's delete-vote / count / delete-item cascade is
three separate storage calls with no transaction (`$transaction` appears only
in `updateTechStackSelections`), so its steps interleave with a concurrent
addVote.  Concretely, on `dbRace` (one item, one vote by member 1): removeVote
for member 1 deletes the vote (line 209) and its cascade check reads zero
remaining votes (lines 219-230); a full `addExistingTechVote` by member 2 then
commits a new vote and reports success; removeVote next deletes the item on
the stale zero count (line 232).  The final store holds member 2's committed
vote dangling on a deleted item — under a cascading delete it would be
silently dropped — which the single-transaction claim rules out. -/
theorem removeVote_cascade_race :
    teamTechStackItemVoteDelete dbRace 1 1 = .ok dbRaceA ∧
    (itemVotes dbRaceA 1).length = 0 ∧
    addExistingTechVote dbRaceA "u2" 1 1 = (.ok resultRaceB, dbRaceB) ∧
    teamTechStackItemDelete dbRaceB 1 = .ok dbRaceC ∧
    dbRaceC.teamTechStackItemVotes = [voteRaceB] ∧
    dbRaceC.teamTechStackItems = [] := by
  decide

/-- C4 counterexample: an updateSelections call that passes validation but
lists the same techId twice with conflicting values succeeds, and the item's
final flag is the LAST requested value, so the listed entry requesting `true`
does not have its requested value afterward even though no failure occurred. -/
theorem updateSelections_requested_value_counterexample :
    ({ techId := 5, isSelected := true } : TechSelection) ∈ techsArrayOf dtoDup ∧
    updateTechStackSelections dbDup "u1" 1 dtoDup =
      (.ok [{ id := 5, name := "Vue", categoryId := 1, voyageTeamId := 1, isSelected := true },
            { id := 5, name := "Vue", categoryId := 1, voyageTeamId := 1, isSelected := false }], dbDupAfter) ∧
    dbDupAfter.teamTechStackItems = [{ id := 5, name := "Vue", categoryId := 1, voyageTeamId := 1, isSelected := false }] := by
  decide

/-! ## Store invariants and reachable states -/

/-- Freshness of the autoincrement item counter: every stored item id, and
every vote's item reference, lies below `nextItemId`. -/
def FreshIds (db : DB) : Prop :=
  (∀ it ∈ db.teamTechStackItems, it.id < db.nextItemId) ∧
  (∀ v ∈ db.teamTechStackItemVotes, v.teamTechId < db.nextItemId)

/-- The spec's global invariant: no stored tech item has zero votes. -/
def NoOrphanItem (db : DB) : Prop :=
  ∀ it ∈ db.teamTechStackItems, ∃ v ∈ db.teamTechStackItemVotes, v.teamTechId = it.id

/-- Uniqueness of the (item, member) vote pair across all vote records. -/
def VotesUnique (db : DB) : Prop :=
  (db.teamTechStackItemVotes.map (fun v => (v.teamTechId, v.teamMemberId))).Nodup

/-- The three store invariants the subsystem maintains together. -/
def Inv (db : DB) : Prop := FreshIds db ∧ NoOrphanItem db ∧ VotesUnique db

/-- States reachable from an empty catalog (arbitrary teams, members and
categories, no items, no votes) by sequential runs of the subsystem's four
mutating operations. -/
inductive Reachable : DB → Prop where
  | init (teams : List Nat) (members : List VoyageTeamMember)
      (cats : List TechStackCategory) (ni nv clock : Nat) :
      Reachable { voyageTeams := teams, voyageTeamMembers := members,
                  techStackCategories := cats, teamTechStackItems := [],
                  teamTechStackItemVotes := [], nextItemId := ni,
                  nextVoteId := nv, now := clock }
  | selections (db : DB) (u : String) (t : Nat) (dto : UpdateTechSelectionsDto)
      (h : Reachable db) : Reachable (updateTechStackSelections db u t dto).2
  | propose (db : DB) (u : String) (t : Nat) (dto : CreateTeamTechDto)
      (h : Reachable db) : Reachable (addNewTeamTech db u t dto).2
  | vote (db : DB) (u : String) (t i : Nat) (h : Reachable db) :
      Reachable (addExistingTechVote db u t i).2
  | unvote (db : DB) (u : String) (t i : Nat) (h : Reachable db) :
      Reachable (removeVote db u t i).2

/-! ## Inversion lemmas for the storage primitives -/

/-- Inversion of a successful vote deletion: the store keeps everything except
the votes matching the composite key, and the key did match some vote. -/
theorem voteDelete_ok {db : DB} {t m : Nat} {db1 : DB}
    (h : teamTechStackItemVoteDelete db t m = .ok db1) :
    db1 = { db with teamTechStackItemVotes :=
      db.teamTechStackItemVotes.filter (fun v => !(votePairB t m v)) } := by
  unfold teamTechStackItemVoteDelete at h
  split at h <;> simp_all

/-- Inversion of a successful item deletion. -/
theorem itemDelete_ok {db : DB} {i : Nat} {db1 : DB}
    (h : teamTechStackItemDelete db i = .ok db1) :
    db1 = { db with teamTechStackItems :=
      db.teamTechStackItems.filter (fun it => !(it.id == i)) } := by
  unfold teamTechStackItemDelete at h
  split at h <;> simp_all

/-- Inversion of a successful item creation: the duplicate check was negative
and the new row is appended with the next id. -/
theorem itemCreate_ok {db : DB} {name : String} {cat team : Nat}
    {it : TeamTechStackItem} {db1 : DB}
    (h : teamTechStackItemCreate db name cat team = .ok (it, db1)) :
    db.teamTechStackItems.any (itemDupB name cat team) = false ∧
    it = { id := db.nextItemId, name := name, categoryId := cat,
           voyageTeamId := team, isSelected := false } ∧
    db1 = { db with
            teamTechStackItems := db.teamTechStackItems ++ [it]
            nextItemId := db.nextItemId + 1 } := by
  unfold teamTechStackItemCreate at h
  split at h
  · simp at h
  · rename_i hdup
    simp only [Except.ok.injEq, Prod.mk.injEq] at h
    obtain ⟨h1, h2⟩ := h
    subst h1
    subst h2
    exact ⟨by simpa using hdup, rfl, rfl⟩

/-- Inversion of a successful vote creation: the pair was new and the vote row
is appended with the next id and the current clock. -/
theorem voteCreate_ok {db : DB} {t m : Nat} {v : TeamTechStackItemVote} {db1 : DB}
    (h : teamTechStackItemVoteCreate db t m = .ok (v, db1)) :
    db.teamTechStackItemVotes.any (votePairB t m) = false ∧
    v = { id := db.nextVoteId, teamTechId := t, teamMemberId := m,
          createdAt := db.now, updatedAt := db.now } ∧
    db1 = { db with
            teamTechStackItemVotes := db.teamTechStackItemVotes ++ [v]
            nextVoteId := db.nextVoteId + 1 } := by
  unfold teamTechStackItemVoteCreate at h
  split at h
  · simp at h
  · rename_i hdup
    simp only [Except.ok.injEq, Prod.mk.injEq] at h
    obtain ⟨h1, h2⟩ := h
    subst h1
    subst h2
    exact ⟨by simpa using hdup, rfl, rfl⟩

/-- Inversion of a successful row update: the flag map is applied, everything
else is unchanged. -/
theorem itemUpdate_ok {db : DB} {i : Nat} {s : Bool} {r : TeamTechStackItem} {db1 : DB}
    (h : teamTechStackItemUpdate db i s = .ok (r, db1)) :
    db1 = { db with teamTechStackItems := db.teamTechStackItems.map (applySel i s) } := by
  unfold teamTechStackItemUpdate at h
  split at h <;> simp_all

/-- The flag update never changes a row's id. -/
theorem applySel_id (i : Nat) (s : Bool) (j : TeamTechStackItem) :
    (applySel i s j).id = j.id := by
  unfold applySel
  split <;> rfl

/-- The flag update leaves rows with a different id untouched. -/
theorem applySel_of_ne (i : Nat) (s : Bool) (j : TeamTechStackItem)
    (h : ¬ j.id = i) : applySel i s j = j := by
  unfold applySel
  rw [if_neg (by simpa using h)]

/-- The flag update sets the matching row's flag. -/
theorem applySel_isSelected (i : Nat) (s : Bool) (j : TeamTechStackItem)
    (h : j.id = i) : (applySel i s j).isSelected = s := by
  unfold applySel
  rw [if_pos (by simpa using h)]

/-- Appending an element that is not already present keeps a list duplicate-free. -/
theorem nodup_append_singleton {α : Type} {l : List α} {a : α}
    (h : l.Nodup) (ha : a ∉ l) : (l ++ [a]).Nodup := by
  simp [List.nodup_append, h, ha]

/-- Preservation of the store invariants by `addExistingTechVote`. -/
theorem inv_addExistingTechVote (db : DB) (u : String) (t i : Nat) (h : Inv db) :
    Inv (addExistingTechVote db u t i).2 := by
  unfold addExistingTechVote
  rcases hfind : teamTechStackItemFindUnique db i with _ | it
  · simp only [hfind]; exact h
  · simp only [hfind]
    rcases hm : findVoyageMemberId db u t with _ | mid
    · simp only [hm]; exact h
    · simp only [hm]
      rcases hc : teamTechStackItemVoteCreate db i mid with e | ⟨v, db1⟩
      · cases e <;> simp only [hc] <;> exact h
      · simp only [hc]
        obtain ⟨hany, hv, hdb1⟩ := voteCreate_ok hc
        have hmem := List.mem_of_find?_eq_some hfind
        have hid : it.id = i := by simpa using List.find?_some hfind
        obtain ⟨⟨hfa, hfb⟩, hno, hun⟩ := h
        have hi : i < db.nextItemId := hid ▸ hfa it hmem
        subst hdb1
        refine ⟨⟨?_, ?_⟩, ?_, ?_⟩
        · intro it1 h1
          exact hfa it1 h1
        · intro v1 h1
          rcases List.mem_append.mp h1 with h1 | h1
          · exact hfb v1 h1
          · have hv1 : v1 = v := by simpa using h1
            subst hv1
            simpa [hv] using hi
        · intro it1 h1
          obtain ⟨w, hw, hwid⟩ := hno it1 h1
          exact ⟨w, List.mem_append_left _ hw, hwid⟩
        · unfold VotesUnique
          simp only [List.map_append, List.map_cons, List.map_nil]
          refine nodup_append_singleton hun ?_
          intro hmem2
          rcases List.mem_map.mp hmem2 with ⟨w, hw, hweq⟩
          have hall := List.any_eq_false.mp hany w hw
          apply hall
          have hpair : w.teamTechId = i ∧ w.teamMemberId = mid := by
            simp only [hv] at hweq
            exact ⟨congrArg Prod.fst hweq, congrArg Prod.snd hweq⟩
          simp [votePairB, hpair.1, hpair.2]

/-- Preservation of the store invariants by `addNewTeamTech`: the interesting
case is the successful create pair, where id-freshness shows the first-vote
insert cannot hit the unique constraint (so the no-rollback catch branch that
would leave an orphan item is unreachable sequentially). -/
theorem inv_addNewTeamTech (db : DB) (u : String) (t : Nat)
    (dto : CreateTeamTechDto) (h : Inv db) : Inv (addNewTeamTech db u t dto).2 := by
  unfold addNewTeamTech
  rcases hm : findVoyageMemberId db u t with _ | mid
  · simp only [hm]; exact h
  · simp only [hm]
    rcases hc : teamTechStackItemCreate db dto.techName dto.techCategoryId t with e | ⟨newIt, db1⟩
    · cases e <;> simp only [hc] <;> exact h
    · simp only [hc]
      obtain ⟨hany, hit, hdb1⟩ := itemCreate_ok hc
      obtain ⟨⟨hfa, hfb⟩, hno, hun⟩ := h
      have hex : db1.teamTechStackItemVotes.any (votePairB newIt.id mid) = false := by
        subst hdb1
        apply List.any_eq_false.mpr
        intro w hw
        simp only at hw
        have hlt := hfb w hw
        simp only [votePairB, hit, Bool.and_eq_true, beq_iff_eq]
        rintro ⟨h1, -⟩
        omega
      rcases hc2 : teamTechStackItemVoteCreate db1 newIt.id mid with e2 | ⟨v, db2⟩
      · exfalso
        unfold teamTechStackItemVoteCreate at hc2
        split at hc2
        · rename_i hcond
          simp [hex] at hcond
        · simp at hc2
      · simp only [hc2]
        obtain ⟨hany2, hv, hdb2⟩ := voteCreate_ok hc2
        subst hdb2
        subst hdb1
        simp only at *
        refine ⟨⟨?_, ?_⟩, ?_, ?_⟩
        · intro it1 h1
          simp only at h1
          rcases List.mem_append.mp h1 with h1 | h1
          · have := hfa it1 h1
            dsimp only
            omega
          · have hit1 : it1 = newIt := by simpa using h1
            subst hit1
            simp [hit]
        · intro v1 h1
          simp only at h1
          rcases List.mem_append.mp h1 with h1 | h1
          · have := hfb v1 h1
            dsimp only
            omega
          · have hv1 : v1 = v := by simpa using h1
            subst hv1
            simp [hv, hit]
        · intro it1 h1
          simp only at h1
          rcases List.mem_append.mp h1 with h1 | h1
          · obtain ⟨w, hw, hwid⟩ := hno it1 h1
            exact ⟨w, List.mem_append_left _ hw, hwid⟩
          · have hit1 : it1 = newIt := by simpa using h1
            subst hit1
            refine ⟨v, List.mem_append_right _ (by simp), ?_⟩
            simp [hv]
        · unfold VotesUnique
          simp only [List.map_append, List.map_cons, List.map_nil]
          refine nodup_append_singleton hun ?_
          intro hmem2
          rcases List.mem_map.mp hmem2 with ⟨w, hw, hweq⟩
          have hlt := hfb w hw
          have : w.teamTechId = v.teamTechId := congrArg Prod.fst hweq
          rw [hv, hit] at this
          simp only at this
          omega

/-- Shape of a successful transaction run: item ids (in order and multiplicity),
votes, counters, teams, members, categories and the clock are unchanged; only
`isSelected` flags may differ. -/
theorem applyUpdates_ok_shape (techs : List TechSelection) (db : DB)
    (rs : List TeamTechStackItem) (db1 : DB)
    (h : applyUpdates db techs = .ok (rs, db1)) :
    db1.teamTechStackItems.map (fun it => it.id) = db.teamTechStackItems.map (fun it => it.id) ∧
    db1.teamTechStackItemVotes = db.teamTechStackItemVotes ∧
    db1.nextItemId = db.nextItemId ∧ db1.nextVoteId = db.nextVoteId := by
  induction techs generalizing db rs with
  | nil =>
    unfold applyUpdates at h
    simp only [Except.ok.injEq, Prod.mk.injEq] at h
    obtain ⟨-, h2⟩ := h
    subst h2
    exact ⟨rfl, rfl, rfl, rfl⟩
  | cons t rest ih =>
    unfold applyUpdates at h
    rcases hu : teamTechStackItemUpdate db t.techId t.isSelected with e | ⟨r, dba⟩
    · rw [hu] at h; simp at h
    · rw [hu] at h
      dsimp only at h
      rcases ha : applyUpdates dba rest with e | ⟨rs2, db2⟩
      · rw [ha] at h; simp at h
      · rw [ha] at h
        simp only [Except.ok.injEq, Prod.mk.injEq] at h
        obtain ⟨-, h2⟩ := h
        subst h2
        obtain ⟨i1, i2, i3, i4⟩ := ih dba rs2 ha
        have hshape := itemUpdate_ok hu
        have ha1 : dba.teamTechStackItems.map (fun it => it.id) =
            db.teamTechStackItems.map (fun it => it.id) := by
          rw [hshape]
          dsimp only
          rw [List.map_map]
          apply List.map_eq_map_iff.mpr
          intro a _
          simp [Function.comp, applySel_id]
        have ha2 : dba.teamTechStackItemVotes = db.teamTechStackItemVotes := by rw [hshape]
        have ha3 : dba.nextItemId = db.nextItemId := by rw [hshape]
        have ha4 : dba.nextVoteId = db.nextVoteId := by rw [hshape]
        exact ⟨ha1 ▸ i1, ha2 ▸ i2, ha3 ▸ i3, ha4 ▸ i4⟩

/-- Preservation of the store invariants by `updateTechStackSelections`. -/
theorem inv_updateTechStackSelections (db : DB) (u : String) (t : Nat)
    (dto : UpdateTechSelectionsDto) (h : Inv db) :
    Inv (updateTechStackSelections db u t dto).2 := by
  unfold updateTechStackSelections
  split
  · exact h
  · rcases hm : findVoyageMemberId db u t with _ | mid
    · simp only [hm]; exact h
    · simp only [hm]
      rcases ha : applyUpdates db (techsArrayOf dto) with e | ⟨rs, db1⟩
      · simp only [ha]; exact h
      · simp only [ha]
        obtain ⟨hid, hv, hni, hnv⟩ := applyUpdates_ok_shape _ _ _ _ ha
        obtain ⟨⟨hfa, hfb⟩, hno, hun⟩ := h
        refine ⟨⟨?_, ?_⟩, ?_, ?_⟩
        · intro it1 h1
          have hmem : it1.id ∈ db.teamTechStackItems.map (fun it => it.id) := by
            rw [← hid]
            exact List.mem_map_of_mem _ h1
          rcases List.mem_map.mp hmem with ⟨it0, h0, heq⟩
          rw [hni, ← heq]
          exact hfa it0 h0
        · intro v1 h1
          rw [hv] at h1
          rw [hni]
          exact hfb v1 h1
        · intro it1 h1
          have hmem : it1.id ∈ db.teamTechStackItems.map (fun it => it.id) := by
            rw [← hid]
            exact List.mem_map_of_mem _ h1
          rcases List.mem_map.mp hmem with ⟨it0, h0, heq⟩
          obtain ⟨w, hw, hwid⟩ := hno it0 h0
          exact ⟨w, by rw [hv]; exact hw, by rw [hwid, heq]⟩
        · unfold VotesUnique
          rw [hv]
          exact hun

/-- Preservation of the store invariants by `removeVote`: deleting a vote
either leaves other votes witnessing the item, or triggers the item's own
deletion in the cascade branch. -/
theorem inv_removeVote (db : DB) (u : String) (t i : Nat) (h : Inv db) :
    Inv (removeVote db u t i).2 := by
  unfold removeVote
  rcases hm : findVoyageMemberId db u t with _ | mid
  · simp only [hm]; exact h
  · simp only [hm]
    rcases hd : teamTechStackItemVoteDelete db i mid with e | db1
    · cases e <;> simp only [hd] <;> exact h
    · simp only [hd]
      have hdb1 := voteDelete_ok hd
      obtain ⟨⟨hfa, hfb⟩, hno, hun⟩ := h
      have e1 : db1.teamTechStackItems = db.teamTechStackItems := by rw [hdb1]
      have e2 : db1.teamTechStackItemVotes =
          db.teamTechStackItemVotes.filter (fun v => !(votePairB i mid v)) := by rw [hdb1]
      have e3 : db1.nextItemId = db.nextItemId := by rw [hdb1]
      have hf1 : FreshIds db1 := by
        refine ⟨?_, ?_⟩
        · rw [e1, e3]; exact hfa
        · rw [e2, e3]
          intro v1 h1
          exact hfb v1 (List.mem_filter.mp h1).1
      have hu1 : VotesUnique db1 := by
        unfold VotesUnique
        rw [e2]
        exact List.Nodup.sublist ((List.filter_sublist _).map _) hun
      have survive : ∀ it1 ∈ db.teamTechStackItems, it1.id ≠ i →
          ∃ w ∈ db1.teamTechStackItemVotes, w.teamTechId = it1.id := by
        intro it1 h1 hne
        obtain ⟨w, hw, hwid⟩ := hno it1 h1
        refine ⟨w, ?_, hwid⟩
        rw [e2]
        refine List.mem_filter.mpr ⟨hw, ?_⟩
        simp [votePairB, hwid, hne]
      rcases hfind : teamTechStackItemFindUnique db1 i with _ | it
      · simp only [hfind]
        refine ⟨hf1, ?_, hu1⟩
        intro it1 h1
        have hne : it1.id ≠ i := by
          unfold teamTechStackItemFindUnique at hfind
          have := List.find?_eq_none.mp hfind it1 h1
          simpa using this
        exact survive it1 (e1 ▸ h1) hne
      · simp only [hfind]
        split
        · rename_i hlen
          rcases hdel : teamTechStackItemDelete db1 i with e | db2
          · exfalso
            unfold teamTechStackItemDelete at hdel
            split at hdel
            · simp at hdel
            · rename_i hcond
              apply hcond
              have hfind2 : db1.teamTechStackItems.find? (fun it2 => it2.id == i) = some it := hfind
              refine List.any_eq_true.mpr ⟨it, List.mem_of_find?_eq_some hfind2, ?_⟩
              have hp := List.find?_some hfind2
              simpa using hp
          · simp only [hdel]
            have hdb2 := itemDelete_ok hdel
            have f1 : db2.teamTechStackItems =
                db1.teamTechStackItems.filter (fun j => !(j.id == i)) := by rw [hdb2]
            have f2 : db2.teamTechStackItemVotes = db1.teamTechStackItemVotes := by rw [hdb2]
            have f3 : db2.nextItemId = db1.nextItemId := by rw [hdb2]
            refine ⟨⟨?_, ?_⟩, ?_, ?_⟩
            · rw [f1, f3]
              intro it1 h1
              exact hf1.1 it1 (List.mem_filter.mp h1).1
            · rw [f2, f3]
              exact hf1.2
            · intro it1 h1
              rw [f1] at h1
              obtain ⟨h1m, h1p⟩ := List.mem_filter.mp h1
              have hne : it1.id ≠ i := by simpa using h1p
              obtain ⟨w, hw, hwid⟩ := survive it1 (e1 ▸ h1m) hne
              exact ⟨w, f2 ▸ hw, hwid⟩
            · unfold VotesUnique
              rw [f2]
              exact hu1
        · rename_i hlen
          refine ⟨hf1, ?_, hu1⟩
          intro it1 h1
          by_cases hcase : it1.id = i
          · have hne : itemVotes db1 i ≠ [] := by
              intro hnil
              apply hlen
              rw [hnil]
              rfl
            obtain ⟨w, hw⟩ := List.exists_mem_of_ne_nil _ hne
            unfold itemVotes at hw
            obtain ⟨hwm, hwp⟩ := List.mem_filter.mp hw
            refine ⟨w, hwm, ?_⟩
            rw [hcase]
            simpa using hwp
          · exact survive it1 (e1 ▸ h1) hcase

/-- Every reachable store satisfies all three invariants. -/
theorem reachable_inv (db : DB) (h : Reachable db) : Inv db := by
  induction h with
  | init teams members cats ni nv clock =>
    refine ⟨⟨?_, ?_⟩, ?_, ?_⟩ <;> simp [VotesUnique, NoOrphanItem, FreshIds]
  | selections db u t dto h ih => exact inv_updateTechStackSelections db u t dto ih
  | propose db u t dto h ih => exact inv_addNewTeamTech db u t dto ih
  | vote db u t i h ih => exact inv_addExistingTechVote db u t i ih
  | unvote db u t i h ih => exact inv_removeVote db u t i ih

/-- C1: in every store reachable by the subsystem's operations (proposeTech,
addVote, removeVote, updateSelections), no TeamTechStackItem has zero
associated TeamTechStackItemVote records: a successful proposeTech leaves the
new item with its creator's vote, and removeVote deletes an item rather than
leave it with its last vote gone. -/
theorem reachable_no_zero_vote_item (db : DB) (h : Reachable db) : NoOrphanItem db :=
  (reachable_inv db h).2.1

/-- Empty-catalog starting store: team 1 with two members, no items, no votes. -/
def dbInit : DB :=
  { voyageTeams := [1]
    voyageTeamMembers := [member1, member2]
    techStackCategories := [catFrontend]
    teamTechStackItems := []
    teamTechStackItemVotes := []
    nextItemId := 1
    nextVoteId := 1
    now := 0 }

/-- The proposal used to build the one-item fixture. -/
def dtoReact : CreateTeamTechDto := { techName := "React", techCategoryId := 1 }

/-- Store after member 1 proposed "React": one item carrying its creator's vote. -/
def dbOneTech : DB := (addNewTeamTech dbInit "u1" 1 dtoReact).2

/-- Reachability of the one-item fixture: one propose step from the start. -/
theorem reachable_dbOneTech : Reachable dbOneTech :=
  Reachable.propose dbInit "u1" 1 dtoReact
    (Reachable.init [1] [member1, member2] [catFrontend] 1 1 0)

/-- Witness for C1: the invariant evaluated at the concrete reachable store
`dbOneTech`, whose reachability discharges the hypothesis. -/
theorem reachable_no_zero_vote_item_witness : NoOrphanItem dbOneTech :=
  reachable_no_zero_vote_item dbOneTech reachable_dbOneTech

/-- C5: with the caller's membership resolved and the store satisfying the
id-freshness discipline, addNewTeamTech is all-or-nothing: when an item with
the same (name, category, team) already exists it fails with Conflict and
changes nothing; otherwise it creates exactly the new item together with the
creator's first vote for it (so no item is ever left without a vote). -/
theorem addNewTeamTech_all_or_nothing (db : DB) (u : String) (teamId : Nat)
    (dto : CreateTeamTechDto) (mid : Nat)
    (hm : findVoyageMemberId db u teamId = some mid)
    (hf : FreshIds db) :
    (db.teamTechStackItems.any (itemDupB dto.techName dto.techCategoryId teamId) = true →
      addNewTeamTech db u teamId dto =
        (.error (.conflict (dto.techName ++ " already exists in the available team tech stack.")), db)) ∧
    (db.teamTechStackItems.any (itemDupB dto.techName dto.techCategoryId teamId) = false →
      addNewTeamTech db u teamId dto =
        (.ok { teamTechStackItemVoteId := db.nextVoteId, teamTechId := db.nextItemId,
               teamMemberId := mid, createdAt := db.now, updatedAt := db.now },
         { db with
           teamTechStackItems := db.teamTechStackItems ++ [{ id := db.nextItemId, name := dto.techName, categoryId := dto.techCategoryId, voyageTeamId := teamId, isSelected := false }]
           teamTechStackItemVotes := db.teamTechStackItemVotes ++ [{ id := db.nextVoteId, teamTechId := db.nextItemId, teamMemberId := mid, createdAt := db.now, updatedAt := db.now }]
           nextItemId := db.nextItemId + 1
           nextVoteId := db.nextVoteId + 1 })) := by
  constructor
  · intro hdup
    unfold addNewTeamTech
    simp only [hm]
    unfold teamTechStackItemCreate
    rw [hdup]
    simp
  · intro hdup
    have hvoteany : db.teamTechStackItemVotes.any (votePairB db.nextItemId mid) = false := by
      apply List.any_eq_false.mpr
      intro w hw
      have := hf.2 w hw
      simp only [votePairB, Bool.and_eq_true, beq_iff_eq]
      rintro ⟨h1, -⟩
      omega
    unfold addNewTeamTech
    simp only [hm]
    unfold teamTechStackItemCreate
    rw [hdup]
    unfold teamTechStackItemVoteCreate
    simp [hvoteany]

/-- Second proposal payload used by the C5 witness. -/
def dtoVue : CreateTeamTechDto := { techName := "Vue", techCategoryId := 1 }

/-- The item stored in `dbOneTech`. -/
def itemReact : TeamTechStackItem :=
  { id := 1, name := "React", categoryId := 1, voyageTeamId := 1, isSelected := false }

/-- Witness for C5 at `dbOneTech`: proposing "React" again yields Conflict and
no change; proposing "Vue" creates the item together with its creator's vote. -/
theorem addNewTeamTech_all_or_nothing_witness :
    dbOneTech.teamTechStackItems.any (itemDupB "React" 1 1) = true ∧
    addNewTeamTech dbOneTech "u2" 1 dtoReact =
      (.error (.conflict ("React" ++ " already exists in the available team tech stack.")), dbOneTech) ∧
    dbOneTech.teamTechStackItems.any (itemDupB "Vue" 1 1) = false ∧
    addNewTeamTech dbOneTech "u2" 1 dtoVue =
      (.ok { teamTechStackItemVoteId := dbOneTech.nextVoteId, teamTechId := dbOneTech.nextItemId,
             teamMemberId := 2, createdAt := dbOneTech.now, updatedAt := dbOneTech.now },
       { dbOneTech with
         teamTechStackItems := dbOneTech.teamTechStackItems ++ [{ id := dbOneTech.nextItemId, name := "Vue", categoryId := 1, voyageTeamId := 1, isSelected := false }]
         teamTechStackItemVotes := dbOneTech.teamTechStackItemVotes ++ [{ id := dbOneTech.nextVoteId, teamTechId := dbOneTech.nextItemId, teamMemberId := 2, createdAt := dbOneTech.now, updatedAt := dbOneTech.now }]
         nextItemId := dbOneTech.nextItemId + 1
         nextVoteId := dbOneTech.nextVoteId + 1 }) :=
  ⟨by decide,
   (addNewTeamTech_all_or_nothing dbOneTech "u2" 1 dtoReact 2 (by decide) ⟨by decide, by decide⟩).1 (by decide),
   by decide,
   (addNewTeamTech_all_or_nothing dbOneTech "u2" 1 dtoVue 2 (by decide) ⟨by decide, by decide⟩).2 (by decide)⟩

/-- C6: addExistingTechVote enforces at most one vote per (member, item) pair:
when the pair already has a vote it fails with Conflict leaving the vote set
unchanged; when it does not, it inserts exactly one vote and returns the new
vote's identifier, item id, member id and timestamps; and every reachable
store has pairwise-distinct vote pairs. -/
theorem addExistingTechVote_unique_pair (db : DB) (u : String) (teamId teamTechId mid : Nat)
    (it : TeamTechStackItem)
    (hit : teamTechStackItemFindUnique db teamTechId = some it)
    (hm : findVoyageMemberId db u teamId = some mid) :
    (db.teamTechStackItemVotes.any (votePairB teamTechId mid) = true →
      addExistingTechVote db u teamId teamTechId =
        (.error (.conflict ("User has already voted for techId:" ++ toString teamTechId)), db)) ∧
    (db.teamTechStackItemVotes.any (votePairB teamTechId mid) = false →
      addExistingTechVote db u teamId teamTechId =
        (.ok { teamTechStackItemVoteId := db.nextVoteId, teamTechId := teamTechId,
               teamMemberId := mid, createdAt := db.now, updatedAt := db.now },
         { db with
           teamTechStackItemVotes := db.teamTechStackItemVotes ++ [{ id := db.nextVoteId, teamTechId := teamTechId, teamMemberId := mid, createdAt := db.now, updatedAt := db.now }]
           nextVoteId := db.nextVoteId + 1 })) ∧
    (Reachable db → VotesUnique db) := by
  refine ⟨?_, ?_, fun h => (reachable_inv db h).2.2⟩
  · intro hdup
    unfold addExistingTechVote
    simp only [hit, hm]
    unfold teamTechStackItemVoteCreate
    rw [hdup]
    simp
  · intro hdup
    unfold addExistingTechVote
    simp only [hit, hm]
    unfold teamTechStackItemVoteCreate
    rw [hdup]
    simp

/-- Witness for C6 at `dbOneTech`: member 1 re-voting for item 1 yields
Conflict with no change; member 2's first vote succeeds with the returned
record; the reachable fixture has pairwise-distinct vote pairs. -/
theorem addExistingTechVote_unique_pair_witness :
    dbOneTech.teamTechStackItemVotes.any (votePairB 1 1) = true ∧
    addExistingTechVote dbOneTech "u1" 1 1 =
      (.error (.conflict ("User has already voted for techId:" ++ toString 1)), dbOneTech) ∧
    dbOneTech.teamTechStackItemVotes.any (votePairB 1 2) = false ∧
    addExistingTechVote dbOneTech "u2" 1 1 =
      (.ok { teamTechStackItemVoteId := dbOneTech.nextVoteId, teamTechId := 1,
             teamMemberId := 2, createdAt := dbOneTech.now, updatedAt := dbOneTech.now },
       { dbOneTech with
         teamTechStackItemVotes := dbOneTech.teamTechStackItemVotes ++ [{ id := dbOneTech.nextVoteId, teamTechId := 1, teamMemberId := 2, createdAt := dbOneTech.now, updatedAt := dbOneTech.now }]
         nextVoteId := dbOneTech.nextVoteId + 1 }) ∧
    VotesUnique dbOneTech :=
  ⟨by decide,
   (addExistingTechVote_unique_pair dbOneTech "u1" 1 1 1 itemReact (by decide) (by decide)).1 (by decide),
   by decide,
   (addExistingTechVote_unique_pair dbOneTech "u2" 1 1 2 itemReact (by decide) (by decide)).2.1 (by decide),
   (addExistingTechVote_unique_pair dbOneTech "u2" 1 1 2 itemReact (by decide) (by decide)).2.2 reachable_dbOneTech⟩

/-- C8: every mutating operation called by a user with no membership in the
target team fails with BadRequest and leaves the store unchanged.  For
updateSelections the message is either the cap message or the invalid-user
message (the cap check runs first), and for addVote either the missing-item
message or the invalid-user message — all BadRequest, with no write. -/
theorem mutating_ops_identity_gate (db : DB) (u : String) (teamId techId : Nat)
    (sdto : UpdateTechSelectionsDto) (cdto : CreateTeamTechDto)
    (hm : findVoyageMemberId db u teamId = none) :
    (∃ m, updateTechStackSelections db u teamId sdto = (.error (.badRequest m), db)) ∧
    addNewTeamTech db u teamId cdto = (.error (.badRequest "Invalid User or Team Id"), db) ∧
    (∃ m, addExistingTechVote db u teamId techId = (.error (.badRequest m), db)) ∧
    removeVote db u teamId techId = (.error (.badRequest "Invalid User"), db) := by
  refine ⟨?_, ?_, ?_, ?_⟩
  · unfold updateTechStackSelections
    split
    · exact ⟨_, rfl⟩
    · rw [hm]
      exact ⟨_, rfl⟩
  · unfold addNewTeamTech
    rw [hm]
  · unfold addExistingTechVote
    cases hfind : teamTechStackItemFindUnique db techId with
    | none => simp only [hfind]; exact ⟨_, rfl⟩
    | some it => simp only [hfind]; rw [hm]; exact ⟨_, rfl⟩
  · unfold removeVote
    rw [hm]

/-- Witness for C8: a caller with no membership anywhere is rejected by all
four mutating operations on the initial store. -/
theorem mutating_ops_identity_gate_witness :
    findVoyageMemberId dbInit "ghost" 1 = none ∧
    ((∃ m, updateTechStackSelections dbInit "ghost" 1 { categories := [] } = (.error (.badRequest m), dbInit)) ∧
     addNewTeamTech dbInit "ghost" 1 dtoReact = (.error (.badRequest "Invalid User or Team Id"), dbInit) ∧
     (∃ m, addExistingTechVote dbInit "ghost" 1 1 = (.error (.badRequest m), dbInit)) ∧
     removeVote dbInit "ghost" 1 1 = (.error (.badRequest "Invalid User"), dbInit)) :=
  ⟨by decide, mutating_ops_identity_gate dbInit "ghost" 1 1 { categories := [] } dtoReact (by decide)⟩

/-- The BadRequest message of the selection-cap check. -/
def capMessage : String :=
  "Only " ++ toString MAX_SELECTION_COUNT ++ " selections allowed per category"

/-- C3: when some category of the payload has more than MAX_SELECTION_COUNT
(3) entries marked selected, updateTechStackSelections fails with the cap
BadRequest and leaves the store untouched, on every store — in particular
before identity resolution (no membership hypothesis is needed) and before
any write; and when every category has at most 3 selected entries (e.g.
exactly 3) the cap error is never produced. -/
theorem updateSelections_cap_enforcement (db : DB) (u : String) (teamId : Nat)
    (dto : UpdateTechSelectionsDto) :
    ((∃ c ∈ dto.categories, MAX_SELECTION_COUNT < selectCount c) →
      updateTechStackSelections db u teamId dto = (.error (.badRequest capMessage), db)) ∧
    ((∀ c ∈ dto.categories, selectCount c ≤ MAX_SELECTION_COUNT) →
      (updateTechStackSelections db u teamId dto).1 ≠ .error (.badRequest capMessage)) := by
  constructor
  · rintro ⟨c, hc, hcount⟩
    have hany : (dto.categories.any fun c => decide (MAX_SELECTION_COUNT < selectCount c)) = true :=
      List.any_eq_true.mpr ⟨c, hc, by simpa using hcount⟩
    unfold updateTechStackSelections
    simp [hany, capMessage]
  · intro hall
    have hany : (dto.categories.any fun c => decide (MAX_SELECTION_COUNT < selectCount c)) = false := by
      apply List.any_eq_false.mpr
      intro c hc
      simpa using Nat.not_lt.mpr (hall c hc)
    unfold updateTechStackSelections
    rw [hany]
    simp only [Bool.false_eq_true, if_false]
    cases hm : findVoyageMemberId db u teamId with
    | none =>
      simp only [hm]
      decide
    | some mid =>
      simp only [hm]
      cases ha : applyUpdates db (techsArrayOf dto) with
      | error e =>
        simp only [ha]
        cases e <;> simp [rethrow]
      | ok p =>
        obtain ⟨rs, db1⟩ := p
        simp only [ha]
        simp

/-- Payload with four selected entries in one category. -/
def dtoFour : UpdateTechSelectionsDto :=
  { categories := [{ categoryId := 1, techs := [{ techId := 1, isSelected := true }, { techId := 2, isSelected := true }, { techId := 3, isSelected := true }, { techId := 4, isSelected := true }] }] }

/-- Payload with exactly three selected entries in one category. -/
def dtoThree : UpdateTechSelectionsDto :=
  { categories := [{ categoryId := 1, techs := [{ techId := 1, isSelected := true }, { techId := 2, isSelected := true }, { techId := 3, isSelected := true }] }] }

/-- Witness for C3: the four-selected payload is rejected with the cap message
and no change even on a store with no teams or members at all (so the check
ran before identity resolution); the three-selected payload never produces
the cap error. -/
theorem updateSelections_cap_enforcement_witness :
    (∃ c ∈ dtoFour.categories, MAX_SELECTION_COUNT < selectCount c) ∧
    updateTechStackSelections dbNoTeam "u1" 1 dtoFour = (.error (.badRequest capMessage), dbNoTeam) ∧
    (∀ c ∈ dtoThree.categories, selectCount c ≤ MAX_SELECTION_COUNT) ∧
    (updateTechStackSelections dbNoTeam "u1" 1 dtoThree).1 ≠ .error (.badRequest capMessage) :=
  ⟨by decide, (updateSelections_cap_enforcement dbNoTeam "u1" 1 dtoFour).1 (by decide),
   by decide, (updateSelections_cap_enforcement dbNoTeam "u1" 1 dtoThree).2 (by decide)⟩

/-- Filtering out the negation of a predicate removes exactly `countP` many
elements. -/
theorem length_filter_not {α : Type} (l : List α) (p : α → Bool) :
    (l.filter (fun a => !(p a))).length + l.countP p = l.length := by
  induction l with
  | nil => simp
  | cons a t ih =>
    cases h : p a <;> simp [List.filter_cons, List.countP_cons, h] <;> omega

/-- The votes an item retains after deleting one member's vote: the filter on
the vote table commutes with the per-item restriction. -/
theorem itemVotes_after_delete (db : DB) (t m i : Nat) :
    itemVotes { db with teamTechStackItemVotes := db.teamTechStackItemVotes.filter (fun v => !(votePairB t m v)) } i
      = (itemVotes db i).filter (fun v => !(votePairB t m v)) := by
  unfold itemVotes
  dsimp only
  rw [List.filter_filter, List.filter_filter]
  apply List.filter_congr
  intro a _
  rw [Bool.and_comm]

/-- C2: for a member whose vote on the item exists (as the unique vote with
that (item, member) pair) and an item that exists, removeVote deletes that
vote; when it was the item's only vote, the item is deleted as well and the
call reports "The vote and tech stack item were deleted"; with two or more
votes on the item, the item and every other vote are left unchanged and the
call reports "This vote was deleted". -/
theorem removeVote_cascade_behavior (db : DB) (u : String) (teamId teamTechId mid : Nat)
    (v0 : TeamTechStackItemVote) (it : TeamTechStackItem)
    (hm : findVoyageMemberId db u teamId = some mid)
    (hv0 : v0 ∈ db.teamTechStackItemVotes)
    (hv0t : v0.teamTechId = teamTechId) (hv0m : v0.teamMemberId = mid)
    (hit : teamTechStackItemFindUnique db teamTechId = some it)
    (hcount : db.teamTechStackItemVotes.countP (votePairB teamTechId mid) = 1) :
    (itemVotes db teamTechId = [v0] →
      removeVote db u teamId teamTechId =
        (.ok { message := "The vote and tech stack item were deleted", statusCode := 200 },
         { db with
           teamTechStackItemVotes := db.teamTechStackItemVotes.filter (fun v => !(votePairB teamTechId mid v))
           teamTechStackItems := db.teamTechStackItems.filter (fun j => !(j.id == teamTechId)) })) ∧
    (2 ≤ (itemVotes db teamTechId).length →
      removeVote db u teamId teamTechId =
        (.ok { message := "This vote was deleted", statusCode := 200 },
         { db with teamTechStackItemVotes := db.teamTechStackItemVotes.filter (fun v => !(votePairB teamTechId mid v)) })) := by
  have hpair : votePairB teamTechId mid v0 = true := by
    simp [votePairB, hv0t, hv0m]
  have hanyv : db.teamTechStackItemVotes.any (votePairB teamTechId mid) = true :=
    List.any_eq_true.mpr ⟨v0, hv0, hpair⟩
  have hit2 : db.teamTechStackItems.find? (fun j => j.id == teamTechId) = some it := hit
  have hitmem := List.mem_of_find?_eq_some hit2
  have hitid := List.find?_some hit2
  have hanyit : db.teamTechStackItems.any (fun j => j.id == teamTechId) = true :=
    List.any_eq_true.mpr ⟨it, hitmem, by simpa using hitid⟩
  constructor
  · intro hone
    unfold removeVote
    simp only [hm]
    rcases hd : teamTechStackItemVoteDelete db teamTechId mid with e | db1
    · exfalso
      unfold teamTechStackItemVoteDelete at hd
      rw [hanyv] at hd
      simp at hd
    · simp only [hd]
      have hdb1 := voteDelete_ok hd
      subst hdb1
      rw [show teamTechStackItemFindUnique { db with teamTechStackItemVotes := db.teamTechStackItemVotes.filter (fun v => !(votePairB teamTechId mid v)) } teamTechId = some it from hit]
      rw [itemVotes_after_delete, hone]
      simp only [List.filter_cons, hpair, Bool.not_true, List.filter_nil, List.length_nil]
      rcases hdel : teamTechStackItemDelete { db with teamTechStackItemVotes := db.teamTechStackItemVotes.filter (fun v => !(votePairB teamTechId mid v)) } teamTechId with e | db2
      · exfalso
        unfold teamTechStackItemDelete at hdel
        dsimp only at hdel
        rw [hanyit] at hdel
        simp at hdel
      · simp only [hdel]
        have hdb2 := itemDelete_ok hdel
        subst hdb2
        rfl
  · intro htwo
    have hfilter_eq : db.teamTechStackItemVotes.filter (fun a => votePairB teamTechId mid a && (a.teamTechId == teamTechId)) = db.teamTechStackItemVotes.filter (votePairB teamTechId mid) := by
      apply List.filter_congr
      intro a _
      cases hp : votePairB teamTechId mid a
      · simp
      · have ha : a.teamTechId = teamTechId := by
          simp only [votePairB, Bool.and_eq_true, beq_iff_eq] at hp
          exact hp.1
        simp [ha]
    have hcount2 : (itemVotes db teamTechId).countP (votePairB teamTechId mid) = 1 := by
      unfold itemVotes
      rw [List.countP_filter, List.countP_eq_length_filter, hfilter_eq,
        ← List.countP_eq_length_filter, hcount]
    have hlen := length_filter_not (itemVotes db teamTechId) (votePairB teamTechId mid)
    rw [hcount2] at hlen
    have hlenpos : (((itemVotes db teamTechId).filter (fun v => !(votePairB teamTechId mid v))).length == 0) = false := by
      have hne : ¬ ((itemVotes db teamTechId).filter (fun v => !(votePairB teamTechId mid v))).length = 0 := by
        omega
      simpa using hne
    unfold removeVote
    simp only [hm]
    rcases hd : teamTechStackItemVoteDelete db teamTechId mid with e | db1
    · exfalso
      unfold teamTechStackItemVoteDelete at hd
      rw [hanyv] at hd
      simp at hd
    · simp only [hd]
      have hdb1 := voteDelete_ok hd
      subst hdb1
      rw [show teamTechStackItemFindUnique { db with teamTechStackItemVotes := db.teamTechStackItemVotes.filter (fun v => !(votePairB teamTechId mid v)) } teamTechId = some it from hit]
      rw [itemVotes_after_delete, hlenpos]
      rfl

/-- The single vote of `dbRace` (member 1 on item 1). -/
def voteRace1 : TeamTechStackItemVote :=
  { id := 1, teamTechId := 1, teamMemberId := 1, createdAt := 0, updatedAt := 0 }

/-- Like `dbRace` but with a second vote (member 2) on the same item. -/
def dbTwoVotes : DB :=
  { dbRace with teamTechStackItemVotes := [voteRace1, voteRaceB], nextVoteId := 3 }

/-- Witness for C2: on the one-vote store the call deletes vote and item and
reports the cascade message; on the two-vote store it deletes only the
caller's vote and reports the plain message. -/
theorem removeVote_cascade_behavior_witness :
    itemVotes dbRace 1 = [voteRace1] ∧
    removeVote dbRace "u1" 1 1 =
      (.ok { message := "The vote and tech stack item were deleted", statusCode := 200 },
       { dbRace with
         teamTechStackItemVotes := dbRace.teamTechStackItemVotes.filter (fun v => !(votePairB 1 1 v))
         teamTechStackItems := dbRace.teamTechStackItems.filter (fun j => !(j.id == 1)) }) ∧
    2 ≤ (itemVotes dbTwoVotes 1).length ∧
    removeVote dbTwoVotes "u1" 1 1 =
      (.ok { message := "This vote was deleted", statusCode := 200 },
       { dbTwoVotes with teamTechStackItemVotes := dbTwoVotes.teamTechStackItemVotes.filter (fun v => !(votePairB 1 1 v)) }) :=
  ⟨by decide,
   (removeVote_cascade_behavior dbRace "u1" 1 1 1 voteRace1 itemReact (by decide) (by decide)
     (by decide) (by decide) (by decide) (by decide)).1 (by decide),
   by decide,
   (removeVote_cascade_behavior dbTwoVotes "u1" 1 1 1 voteRace1 itemReact (by decide) (by decide)
     (by decide) (by decide) (by decide) (by decide)).2 (by decide)⟩

/-- The per-row update map leaves rows with a different id untouched, viewed
through the filter on any other id. -/
theorem filter_id_map_update (l : List TeamTechStackItem) (i x : Nat) (s : Bool)
    (hx : x ≠ i) :
    (l.map (applySel i s)).filter (fun it => it.id == x) =
      l.filter (fun it => it.id == x) := by
  induction l with
  | nil => rfl
  | cons a t ih =>
    simp only [List.map_cons, List.filter_cons]
    rw [show ((applySel i s a).id == x) = (a.id == x) from by rw [applySel_id]]
    by_cases hax : a.id = x
    · have hne : ¬ a.id = i := fun hh => hx (hax ▸ hh)
      rw [if_pos (by simpa using hax), if_pos (by simpa using hax),
        applySel_of_ne i s a hne, ih]
    · rw [if_neg (by simpa using hax), if_neg (by simpa using hax), ih]

/-- A successful row update sets the flag of every stored row carrying the
updated id. -/
theorem itemUpdate_sets_flag {db : DB} {i : Nat} {s : Bool} {r : TeamTechStackItem} {db1 : DB}
    (h : teamTechStackItemUpdate db i s = .ok (r, db1)) :
    ∀ it1 ∈ db1.teamTechStackItems, it1.id = i → it1.isSelected = s := by
  have hshape := itemUpdate_ok h
  subst hshape
  dsimp only
  intro it1 h1 hid
  rcases List.mem_map.mp h1 with ⟨j, hj, hje⟩
  subst hje
  by_cases hji : j.id = i
  · exact applySel_isSelected i s j hji
  · rw [applySel_of_ne i s j hji] at hid
    exact absurd hid hji

/-- A successful transaction run leaves rows untouched whose id is listed by
none of its updates. -/
theorem applyUpdates_preserves_other (techs : List TechSelection) (db : DB)
    (rs : List TeamTechStackItem) (db1 : DB)
    (h : applyUpdates db techs = .ok (rs, db1)) (x : Nat)
    (hx : ∀ t ∈ techs, t.techId ≠ x) :
    db1.teamTechStackItems.filter (fun it => it.id == x) =
      db.teamTechStackItems.filter (fun it => it.id == x) := by
  induction techs generalizing db rs with
  | nil =>
    unfold applyUpdates at h
    simp only [Except.ok.injEq, Prod.mk.injEq] at h
    obtain ⟨-, h2⟩ := h
    subst h2
    rfl
  | cons t rest ih =>
    unfold applyUpdates at h
    rcases hu : teamTechStackItemUpdate db t.techId t.isSelected with e | ⟨r, dba⟩
    · rw [hu] at h; simp at h
    · rw [hu] at h
      dsimp only at h
      rcases ha : applyUpdates dba rest with e | ⟨rs2, db2⟩
      · rw [ha] at h; simp at h
      · rw [ha] at h
        simp only [Except.ok.injEq, Prod.mk.injEq] at h
        obtain ⟨-, h2⟩ := h
        subst h2
        have hstep : dba.teamTechStackItems.filter (fun it => it.id == x) =
            db.teamTechStackItems.filter (fun it => it.id == x) := by
          have hshape := itemUpdate_ok hu
          subst hshape
          dsimp only
          exact filter_id_map_update db.teamTechStackItems t.techId x t.isSelected
            (fun hh => hx t (List.mem_cons_self t rest) hh.symm)
        rw [ih dba rs2 ha (fun s2 hs2 => hx s2 (List.mem_cons_of_mem _ hs2)), hstep]

/-- A successful transaction run whose updates carry pairwise-distinct techIds
sets every listed row's flag to its requested value. -/
theorem applyUpdates_sets_flags (techs : List TechSelection) (db : DB)
    (rs : List TeamTechStackItem) (db1 : DB)
    (h : applyUpdates db techs = .ok (rs, db1))
    (hnd : (techs.map (fun t => t.techId)).Nodup) :
    ∀ t ∈ techs, ∀ it1 ∈ db1.teamTechStackItems, it1.id = t.techId →
      it1.isSelected = t.isSelected := by
  induction techs generalizing db rs with
  | nil =>
    intro t ht
    simp at ht
  | cons t rest ih =>
    unfold applyUpdates at h
    rcases hu : teamTechStackItemUpdate db t.techId t.isSelected with e | ⟨r, dba⟩
    · rw [hu] at h; simp at h
    · rw [hu] at h
      dsimp only at h
      rcases ha : applyUpdates dba rest with e | ⟨rs2, db2⟩
      · rw [ha] at h; simp at h
      · rw [ha] at h
        simp only [Except.ok.injEq, Prod.mk.injEq] at h
        obtain ⟨-, h2⟩ := h
        subst h2
        intro t1 ht1 it1 h1 hid
        rcases List.mem_cons.mp ht1 with rfl | ht1
        · have hnd2 := hnd
          simp only [List.map_cons] at hnd2
          have hxr : ∀ s2 ∈ rest, s2.techId ≠ t1.techId := by
            intro s2 hs2 heq
            have hmem3 : s2.techId ∈ rest.map (fun t => t.techId) :=
              List.mem_map_of_mem _ hs2
            rw [heq] at hmem3
            exact (List.nodup_cons.mp hnd2).1 hmem3
          have hfeq := applyUpdates_preserves_other rest dba rs2 db2 ha t1.techId hxr
          have hmemf : it1 ∈ db2.teamTechStackItems.filter (fun it => it.id == t1.techId) :=
            List.mem_filter.mpr ⟨h1, by simp [hid]⟩
          rw [hfeq] at hmemf
          obtain ⟨hmema, -⟩ := List.mem_filter.mp hmemf
          exact itemUpdate_sets_flag hu it1 hmema hid
        · have hnd3 := hnd
          simp only [List.map_cons] at hnd3
          exact ih dba rs2 ha (List.nodup_cons.mp hnd3).2 t1 ht1 it1 h1 hid

/-- C4 (amended): for every updateSelections call whose flattened batch lists
each techId at most once, the updates are one atomic batch: on success every
listed item's isSelected flag equals its requested value afterward, and on any
failure the store — hence every flag — is unchanged.  (When a techId is listed
twice the transaction still commits atomically but the last occurrence wins,
refuting the unconditional claim; see the counterexample.) -/
theorem updateSelections_atomic_nodup (db : DB) (u : String) (teamId : Nat)
    (dto : UpdateTechSelectionsDto)
    (hnd : ((techsArrayOf dto).map (fun t => t.techId)).Nodup) :
    (∀ rs db1, updateTechStackSelections db u teamId dto = (.ok rs, db1) →
      ∀ t ∈ techsArrayOf dto, ∀ it1 ∈ db1.teamTechStackItems,
        it1.id = t.techId → it1.isSelected = t.isSelected) ∧
    (∀ e db1, updateTechStackSelections db u teamId dto = (.error e, db1) → db1 = db) := by
  constructor
  · intro rs db1 hcall
    unfold updateTechStackSelections at hcall
    split at hcall
    · simp at hcall
    · rcases hm : findVoyageMemberId db u teamId with _ | mid
      · rw [hm] at hcall; simp at hcall
      · rw [hm] at hcall
        dsimp only at hcall
        rcases ha : applyUpdates db (techsArrayOf dto) with e | ⟨rs2, db2⟩
        · rw [ha] at hcall; simp at hcall
        · rw [ha] at hcall
          simp only [Prod.mk.injEq, Except.ok.injEq] at hcall
          obtain ⟨-, h2⟩ := hcall
          subst h2
          exact applyUpdates_sets_flags _ _ _ _ ha hnd
  · intro e db1 hcall
    unfold updateTechStackSelections at hcall
    split at hcall
    · simp only [Prod.mk.injEq] at hcall
      exact hcall.2.symm
    · rcases hm : findVoyageMemberId db u teamId with _ | mid
      · rw [hm] at hcall
        simp only [Prod.mk.injEq] at hcall
        exact hcall.2.symm
      · rw [hm] at hcall
        dsimp only at hcall
        rcases ha : applyUpdates db (techsArrayOf dto) with e2 | ⟨rs2, db2⟩
        · rw [ha] at hcall
          simp only [Prod.mk.injEq] at hcall
          exact hcall.2.symm
        · rw [ha] at hcall
          simp at hcall

/-- Payload listing tech 5 exactly once, requesting deselection. -/
def dtoOne : UpdateTechSelectionsDto :=
  { categories := [{ categoryId := 1, techs := [{ techId := 5, isSelected := false }] }] }

/-- Payload listing an unknown techId, so the transaction fails. -/
def dtoBad : UpdateTechSelectionsDto :=
  { categories := [{ categoryId := 1, techs := [{ techId := 99, isSelected := true }] }] }

/-- Witness for the amended C4: a duplicate-free batch commits and the listed
item's flag equals its requested value; a failing batch leaves the store
unchanged. -/
theorem updateSelections_atomic_nodup_witness :
    (((techsArrayOf dtoOne).map (fun t => t.techId)).Nodup ∧
     updateTechStackSelections dbDup "u1" 1 dtoOne =
       (.ok [{ id := 5, name := "Vue", categoryId := 1, voyageTeamId := 1, isSelected := false }], dbDupAfter) ∧
     ({ id := 5, name := "Vue", categoryId := 1, voyageTeamId := 1, isSelected := false } : TeamTechStackItem).isSelected = false) ∧
    (updateTechStackSelections dbDup "u1" 1 dtoBad = (.error (.internal "Record to update not found."), dbDup) ∧
     dbDup = dbDup) :=
  ⟨⟨by decide, by decide,
    (updateSelections_atomic_nodup dbDup "u1" 1 dtoOne (by decide)).1
      [{ id := 5, name := "Vue", categoryId := 1, voyageTeamId := 1, isSelected := false }]
      dbDupAfter (by decide)
      { techId := 5, isSelected := false } (by decide)
      { id := 5, name := "Vue", categoryId := 1, voyageTeamId := 1, isSelected := false }
      (by decide) (by decide)⟩,
   ⟨by decide,
    (updateSelections_atomic_nodup dbDup "u1" 1 dtoBad (by decide)).2
      (.internal "Record to update not found.") dbDup (by decide)⟩⟩

/-! ## GlobalService.responseDtoToArray (src/src/global/global.service.ts) -/

/-- One form response as supplied by a DTO.  Absent fields are `none`; the
TypeScript values `false`, `0`, `""` and `undefined` are all falsy, which the
truthiness tests below mirror. -/
structure FormResponseDto where
  questionId : Nat
  text : Option String
  numeric : Option Int
  boolean : Option Bool
  optionChoiceId : Option Nat
deriving DecidableEq

/-- One flattened row produced for the bulk insert/update; `none` models the
explicit `null` the source writes for a falsy field.  Every row always carries
all five keys, since each spread writes the key in both branches. -/
structure ResponseRow where
  questionId : Nat
  text : Option String
  numeric : Option Int
  boolean : Option Bool
  optionChoiceId : Option Nat
deriving DecidableEq

/-- JavaScript truthiness of an optional string: empty or absent is falsy. -/
def truthyText : Option String → Bool
  | none => false
  | some s => !(s == "")

/-- JavaScript truthiness of an optional number: zero or absent is falsy. -/
def truthyNumeric : Option Int → Bool
  | none => false
  | some n => !(n == 0)

/-- JavaScript truthiness of an optional boolean: false or absent is falsy. -/
def truthyBoolean : Option Bool → Bool
  | none => false
  | some b => b

/-- JavaScript truthiness of an optional id: zero or absent is falsy. -/
def truthyId : Option Nat → Bool
  | none => false
  | some n => !(n == 0)

/-- The per-entry transform of `responseDtoToArray` (lines 57-69): each field
is kept when truthy, otherwise replaced by null. -/
def responseToRow (v : FormResponseDto) : ResponseRow :=
  { questionId := v.questionId
    text := if truthyText v.text then v.text else none
    numeric := if truthyNumeric v.numeric then v.numeric else none
    boolean := if truthyBoolean v.boolean then v.boolean else none
    optionChoiceId := if truthyId v.optionChoiceId then v.optionChoiceId else none }

/-- The DTO shape fed to `responseDtoToArray`: the `for (const index in
responses)` loop picks out only the keys named "response" and "responses",
each holding an array of form responses; an absent key contributes nothing. -/
structure ResponsesInput where
  response : Option (List FormResponseDto)
  responses : Option (List FormResponseDto)
deriving DecidableEq

/-- Embedding of `GlobalService.responseDtoToArray` (lines 51-74): the entries
of the `response` and `responses` arrays (when present) are each flattened
into a row by `responseToRow`. -/
def responseDtoToArray (input : ResponsesInput) : List ResponseRow :=
  ((input.response.getD []) ++ (input.responses.getD [])).map responseToRow

/-- C10: every output entry of responseDtoToArray carries all the keys
questionId, text, numeric, boolean, optionChoiceId (by the row type), keeps
the questionId, and replaces every falsy field value — false, 0, the empty
string, or an absent value — by null; consequently a response of boolean
false, numeric 0, or empty text is indistinguishable in the output from one
that omitted the field. -/
theorem responseDtoToArray_falsy_null (input : ResponsesInput) (v : FormResponseDto) :
    responseDtoToArray input =
      ((input.response.getD []) ++ (input.responses.getD [])).map responseToRow ∧
    (responseToRow v).questionId = v.questionId ∧
    (truthyText v.text = false → (responseToRow v).text = none) ∧
    (truthyNumeric v.numeric = false → (responseToRow v).numeric = none) ∧
    (truthyBoolean v.boolean = false → (responseToRow v).boolean = none) ∧
    (truthyId v.optionChoiceId = false → (responseToRow v).optionChoiceId = none) ∧
    responseToRow { v with boolean := some false } = responseToRow { v with boolean := none } ∧
    responseToRow { v with numeric := some 0 } = responseToRow { v with numeric := none } ∧
    responseToRow { v with text := some "" } = responseToRow { v with text := none } := by
  refine ⟨rfl, rfl, ?_, ?_, ?_, ?_, ?_, ?_, ?_⟩
  · intro h
    unfold responseToRow
    rw [h]
    rfl
  · intro h
    unfold responseToRow
    rw [h]
    rfl
  · intro h
    unfold responseToRow
    rw [h]
    rfl
  · intro h
    unfold responseToRow
    rw [h]
    rfl
  · unfold responseToRow
    rfl
  · unfold responseToRow
    rfl
  · unfold responseToRow
    rfl

/-- Witness for C10 at a concrete response: boolean false, numeric 0 and empty
text all come out as null. -/
theorem responseDtoToArray_falsy_null_witness :
    (responseToRow { questionId := 7, text := some "", numeric := some 0, boolean := some false, optionChoiceId := none }).questionId = 7 ∧
    (responseToRow { questionId := 7, text := some "", numeric := some 0, boolean := some false, optionChoiceId := none }).boolean = none ∧
    (responseToRow { questionId := 7, text := some "", numeric := some 0, boolean := some false, optionChoiceId := none }).numeric = none ∧
    (responseToRow { questionId := 7, text := some "", numeric := some 0, boolean := some false, optionChoiceId := none }).text = none ∧
    (responseToRow { questionId := 7, text := some "", numeric := some 0, boolean := some false, optionChoiceId := none }).optionChoiceId = none :=
  ⟨(responseDtoToArray_falsy_null { response := none, responses := none }
      { questionId := 7, text := some "", numeric := some 0, boolean := some false, optionChoiceId := none }).2.1,
   (responseDtoToArray_falsy_null { response := none, responses := none }
      { questionId := 7, text := some "", numeric := some 0, boolean := some false, optionChoiceId := none }).2.2.2.2.1 (by decide),
   (responseDtoToArray_falsy_null { response := none, responses := none }
      { questionId := 7, text := some "", numeric := some 0, boolean := some false, optionChoiceId := none }).2.2.2.1 (by decide),
   (responseDtoToArray_falsy_null { response := none, responses := none }
      { questionId := 7, text := some "", numeric := some 0, boolean := some false, optionChoiceId := none }).2.2.1 (by decide),
   (responseDtoToArray_falsy_null { response := none, responses := none }
      { questionId := 7, text := some "", numeric := some 0, boolean := some false, optionChoiceId := none }).2.2.2.2.2.1 (by decide)⟩

end ChinguDashboard
